import Mathlib

/-!
Verification development for the model-invocation layer
(`packages/core/src/generation.ts`) and the Solana keypair utility
(`packages/plugin-solana/src/keypairUtils.ts`).

The TypeScript is shallowly embedded: asynchronous provider calls become
explicit outcome streams (`Nat → Except Unit String`, the result of the
i-th underlying `generateText` call), thrown exceptions become `Except`
errors, the unbounded `while (true)` retry loops become fuel-indexed
loops whose exhaustion is reported as `RunResult.retrying` (still
looping), and external collaborators (response parsers, SDK clients,
`fetch`, bs58/base64 decoding, `Keypair.fromSecretKey`) are abstract
function parameters, since their code is outside the repository fragment.
Sleeps are not performed; the cumulative requested delay (in ms) is
accumulated in the state, so backoff claims are statements about that sum.
-/

namespace Eliza

/-- Decidable equality for `Except` outcomes (used to evaluate concrete
runs). -/
instance exceptDecidableEq {ε α : Type} [DecidableEq ε] [DecidableEq α] :
    DecidableEq (Except ε α) := fun x y =>
  match x, y with
  | Except.ok a, Except.ok b =>
    if h : a = b then Decidable.isTrue (by rw [h])
    else Decidable.isFalse (fun hc => h (Except.ok.inj hc))
  | Except.ok _, Except.error _ => Decidable.isFalse (fun hc => Except.noConfusion hc)
  | Except.error _, Except.ok _ => Decidable.isFalse (fun hc => Except.noConfusion hc)
  | Except.error e, Except.error f =>
    if h : e = f then Decidable.isTrue (by rw [h])
    else Decidable.isFalse (fun hc => h (Except.error.inj hc))

/-- The `.trim()` each wrapper applies to the model's response, modelled
over the character list (whitespace stripped from both ends), so that
concrete runs evaluate inside the kernel. -/
def jsTrim (s : String) : String :=
  String.mk (((s.data.dropWhile Char.isWhitespace).reverse.dropWhile Char.isWhitespace).reverse)

/-- Result of running a retrying generator for a bounded number of loop
iterations: a successfully parsed value (with how many underlying
`generateText` calls were made and the cumulative backoff delay in ms
requested before success), or `retrying` when the fuel ran out with the
loop still going, or `raised` when the function threw to its caller
before/outside the retry protection (recording the calls made first). -/
inductive RunResult (α : Type) where
  | ok (value : α) (calls : Nat) (totalDelayMs : Nat)
  | retrying (calls : Nat) (totalDelayMs : Nat)
  | raised (calls : Nat)
deriving DecidableEq, Repr

/-- The `generateText` call as seen from inside a retry loop: an empty
context short-circuits to the empty string without consulting the
provider (generation.ts lines 357-360); otherwise the i-th call's outcome
is the provider stream's i-th entry (text, or a thrown error). -/
def generateTextCall (provider : Nat → Except Unit String) (context : String) (i : Nat) :
    Except Unit String :=
  if context = "" then Except.ok "" else provider i

/-- The retry skeleton shared by `generateShouldRespond`,
`generateTrueOrFalse`, `generateTextArray`, `generateObjectArray` and
`generateTweetActions` (generation.ts lines 509-543 etc.): attempt a
call, return on a successful parse, otherwise sleep `retryDelay` ms and
double it; a thrown error is logged and treated exactly like a parse
failure. State: fuel, calls made, current retryDelay, accumulated delay. -/
def retryLoopA {α : Type} (parse : String → Option α) (call : Nat → Except Unit String) :
    Nat → Nat → Nat → Nat → RunResult α
  | 0, calls, _, acc => RunResult.retrying calls acc
  | fuel + 1, calls, retryDelay, acc =>
    match call calls with
    | Except.ok response =>
      match parse response with
      | some value => RunResult.ok value (calls + 1) acc
      | none => retryLoopA parse call fuel (calls + 1) (retryDelay * 2) (acc + retryDelay)
    | Except.error _ => retryLoopA parse call fuel (calls + 1) (retryDelay * 2) (acc + retryDelay)

/-- generation.ts lines 498-544, `generateShouldRespond`: retry loop with
initial delay 1000, applying the respond/ignore/stop parse to the trimmed
response. The parse function is the external `parseShouldRespondFromText`
(null on failure). -/
def generateShouldRespondRun {α : Type} (parse : String → Option α)
    (provider : Nat → Except Unit String) (context : String) (fuel : Nat) : RunResult α :=
  retryLoopA (fun response => parse (jsTrim response)) (generateTextCall provider context) fuel 0 1000 0

/-- generation.ts line 610: `generateTrueOrFalse` computes its stop
sequences from a variable `modelSettings` that is never defined in
scope (the defining line 608 is commented out), so the binding is the
absent one modelled here: looking it up fails. -/
def modelSettingsInScope : Option (List String) := none

/-- generation.ts lines 597-633, `generateTrueOrFalse`: before its retry
loop it evaluates `modelSettings.stop` (line 610), but `modelSettings`
is not defined in scope, so every call raises a ReferenceError before
the first attempt: zero underlying calls, nothing retried. The loop
body that would run had the variable existed follows the shared
skeleton with the boolean parse on the trimmed response. -/
def generateTrueOrFalseRun (parse : String → Option Bool)
    (provider : Nat → Except Unit String) (context : String) (fuel : Nat) : RunResult Bool :=
  match modelSettingsInScope with
  | none => RunResult.raised 0
  | some stopSeqs =>
    let _stop := stopSeqs ++ ["\n"]
    retryLoopA (fun response => parse (jsTrim response)) (generateTextCall provider context) fuel 0 1000 0

/-- generation.ts lines 653-688, `generateTextArray`: an empty context
returns `[]` at once (lines 663-666, zero underlying calls); otherwise
the shared retry skeleton with `parseJsonArrayFromText` on the raw
(untrimmed) response. -/
def generateTextArrayRun (parse : String → Option (List String))
    (provider : Nat → Except Unit String) (context : String) (fuel : Nat) :
    RunResult (List String) :=
  if context = "" then RunResult.ok [] 0 0
  else retryLoopA parse (generateTextCall provider context) fuel 0 1000 0

/-- generation.ts lines 711-746, `generateObjectArray`: same shape as
`generateTextArray` (empty context returns `[]` at lines 721-724), with
`parseJsonArrayFromText` on the raw response; the element type of the
resulting array is abstract (`any[]` in the source). -/
def generateObjectArrayRun {α : Type} (parse : String → Option (List α))
    (provider : Nat → Except Unit String) (context : String) (fuel : Nat) :
    RunResult (List α) :=
  if context = "" then RunResult.ok [] 0 0
  else retryLoopA parse (generateTextCall provider context) fuel 0 1000 0

/-- generation.ts lines 776-801, the `generateMessageResponse` loop: a
response that fails to parse triggers `continue` with NO sleep and NO
doubling (lines 788-791); only a thrown error doubles `retryLength`
FIRST and then sleeps the doubled amount (lines 794-800). This differs
from `retryLoopA`. -/
def messageResponseLoop {α : Type} (parse : String → Option α)
    (call : Nat → Except Unit String) :
    Nat → Nat → Nat → Nat → RunResult α
  | 0, calls, _, acc => RunResult.retrying calls acc
  | fuel + 1, calls, retryLength, acc =>
    match call calls with
    | Except.ok response =>
      match parse response with
      | some value => RunResult.ok value (calls + 1) acc
      | none => messageResponseLoop parse call fuel (calls + 1) retryLength acc
    | Except.error _ =>
      messageResponseLoop parse call fuel (calls + 1) (retryLength * 2) (acc + retryLength * 2)

/-- generation.ts lines 760-802, `generateMessageResponse`: no
empty-context short-circuit of its own; it enters its loop directly
(initial `retryLength` 1000) with `parseJSONObjectFromText` on the raw
response. The parsed `Content` type is abstract. -/
def generateMessageResponseRun {α : Type} (parse : String → Option α)
    (provider : Nat → Except Unit String) (context : String) (fuel : Nat) : RunResult α :=
  messageResponseLoop parse (generateTextCall provider context) fuel 0 1000 0

/-- generation.ts lines 1318-1361, `generateTweetActions`: the shared
retry skeleton with `parseActionResponseFromText` on the trimmed
response; the parsed `ActionResponse` type is abstract. -/
def generateTweetActionsRun {α : Type} (parse : String → Option α)
    (provider : Nat → Except Unit String) (context : String) (fuel : Nat) : RunResult α :=
  retryLoopA (fun response => parse (jsTrim response)) (generateTextCall provider context) fuel 0 1000 0

/-- The outcome of the i-th attempt of a style-A loop as the loop branches
on it: the parse of a returned text, and `none` for a thrown error. -/
def attemptOf {α : Type} (parse : String → Option α) (call : Nat → Except Unit String)
    (i : Nat) : Option α :=
  match call i with
  | Except.ok response => parse response
  | Except.error _ => none

/-- Environment of the single-shot `generateText` (generation.ts lines
333-479): whether the verifiable-inference flag is set, the optional
verification adapter's outcome (generated text paired with whether its
proof verifies; `Except.error` for a rejected adapter call), and the
provider completion outcome. -/
structure TextEnv where
  verifiableInference : Bool
  adapter : Option (Except Unit (String × Bool))
  provider : Except Unit String

/-- generation.ts lines 333-479, `generateText`: an empty context returns
`""` with no outbound call (lines 357-360); with the verifiable flag set
and an adapter present, the adapter is consulted, a failed proof check
raises, any adapter error re-raises (lines 371-396); otherwise exactly
one provider completion request is issued and its text returned, any
error re-raised (lines 430-478). The second component counts outbound
requests. -/
def generateText (env : TextEnv) (context : String) : Except Unit String × Nat :=
  if context = "" then (Except.ok "", 0)
  else if env.verifiableInference && env.adapter.isSome then
    match env.adapter with
    | some (Except.ok (text, valid)) =>
      if valid then (Except.ok text, 1) else (Except.error (), 1)
    | some (Except.error e) => (Except.error e, 1)
    | none => (Except.error (), 1)
  else
    match env.provider with
    | Except.ok text => (Except.ok text, 1)
    | Except.error e => (Except.error e, 1)

/-- The model providers named by the image dispatcher's branches
(types.ts `ModelProviderName`, the members generation.ts consults), plus
representatives (`OPENAI`, `ANTHROPIC`, `GOOGLE`) of providers with no
explicit image branch. -/
inductive ModelProviderName where
  | OPENAI
  | ANTHROPIC
  | GOOGLE
  | HEURIST
  | TOGETHER
  | LLAMACLOUD
  | FAL
  | VENICE
  | NINETEEN_AI
  | LIVEPEER
deriving DecidableEq, Repr

/-- Modelled from the spec: the image-model settings that
`getImageModelSettings` (models.ts, not part of this fragment, and no
longer imported by generation.ts) resolves for the configured image
provider — a model name and an optional step count (used by the
Together and Fal branches). -/
structure ImageModelSettings where
  name : String
  steps : Option Nat := none
deriving DecidableEq, Repr

/-- The image request fields of generation.ts lines 807-823 that the
embedded dispatcher inspects; the remaining knobs (negative prompt,
iterations, guidance, seed, style, safety flags) flow verbatim into the
provider request bodies, which are abstracted into the environment's
response fields. -/
structure ImageRequest where
  prompt : String
  width : Nat
  height : Nat
  count : Option Nat := none
deriving DecidableEq, Repr

/-- One entry of the Together AI response (`TogetherAIImageResponse`,
generation.ts lines 1308-1314): a possibly missing image URL. -/
structure TogetherImage where
  url : Option String
deriving DecidableEq, Repr

/-- One entry of the Fal response: an image URL and its content type. -/
structure FalImage where
  url : String
  content_type : String
deriving DecidableEq, Repr

/-- One entry of the Livepeer response: an image URL (absolute, or
relative to the gateway). -/
structure LivepeerImage where
  url : String
deriving DecidableEq, Repr

/-- Environment of `generateImage` (generation.ts lines 807-1194): the
configured providers and credential sources, the resolved image-model
settings, and one abstract outcome per provider transport. `Except`
errors stand for thrown exceptions (non-ok HTTP statuses, SDK
rejections); an `ok none` where the shape allows it stands for a
response whose `images`/`data` field is missing or not an array.
`fetchImage` maps an image URL to the base64 payload of its fetched
bytes; `openaiImages` maps the requested size to the `b64_json` entries
of the fallback provider's response; `urlOk` is the `new URL` parse plus
protocol test of the Livepeer branch. -/
structure ImageEnv where
  imageModelProvider : ModelProviderName
  modelProvider : ModelProviderName
  token : Option String
  getSetting : String → Option String
  modelSettings : Option ImageModelSettings
  heuristResponse : Except String String
  togetherResponse : Except String (Option (List TogetherImage))
  falResponse : Except String (List FalImage)
  veniceResponse : Except String (Option (List String))
  nineteenResponse : Except String (Option (List String))
  livepeerResponse : Except String (Option (List LivepeerImage))
  urlOk : String → Bool
  fetchImage : String → Except String String
  openaiImages : String → Except String (List String)

/-- The structured result type of the dispatcher's body (generation.ts
lines 825-829): a success flag, the data URLs on success, the captured
error otherwise. Produced only by code below line 831's settings
lookup. -/
structure ImageResult where
  success : Bool
  data : Option (List String) := none
  error : Option String := none
deriving DecidableEq, Repr

/-- What a caller of `generateImage` observes: a returned structured
result, or a raised error (one that escapes the function). -/
inductive ImageCallOutcome where
  | returned (result : ImageResult)
  | raised
deriving DecidableEq, Repr

/-- generation.ts lines 841-871: the API credential. When the image
provider equals the text provider the runtime token is used as is;
otherwise a switch maps the six explicitly handled providers to their
own setting, and ONLY the default case (a provider the switch does not
name) walks the ordered fallback chain. -/
def imageApiKeyFallbackChain (getSetting : String → Option String) : Option String :=
  ((((((getSetting "HEURIST_API_KEY").orElse fun _ =>
    getSetting "NINETEEN_AI_API_KEY").orElse fun _ =>
    getSetting "TOGETHER_API_KEY").orElse fun _ =>
    getSetting "FAL_API_KEY").orElse fun _ =>
    getSetting "OPENAI_API_KEY").orElse fun _ =>
    getSetting "VENICE_API_KEY").orElse fun _ =>
    getSetting "LIVEPEER_GATEWAY_URL"

/-- generation.ts lines 841-871, the credential resolution itself. -/
def resolveImageApiKey (env : ImageEnv) : Option String :=
  if env.imageModelProvider = env.modelProvider then env.token
  else
    match env.imageModelProvider with
    | ModelProviderName.HEURIST => env.getSetting "HEURIST_API_KEY"
    | ModelProviderName.TOGETHER => env.getSetting "TOGETHER_API_KEY"
    | ModelProviderName.FAL => env.getSetting "FAL_API_KEY"
    | ModelProviderName.OPENAI => env.getSetting "OPENAI_API_KEY"
    | ModelProviderName.VENICE => env.getSetting "VENICE_API_KEY"
    | ModelProviderName.LIVEPEER => env.getSetting "LIVEPEER_GATEWAY_URL"
    | _ => imageApiKeyFallbackChain env.getSetting

/-- Sequential `Promise.all` over a mapper that can throw: the first
thrown error aborts the whole mapping (and is caught by the dispatcher's
outermost catch). -/
def mapEx {α β : Type} (f : α → Except String β) : List α → Except String (List β)
  | [] => Except.ok []
  | x :: xs =>
    match f x with
    | Except.error e => Except.error e
    | Except.ok y =>
      match mapEx f xs with
      | Except.error e => Except.error e
      | Except.ok ys => Except.ok (y :: ys)

/-- generation.ts lines 873-909, the Heurist branch: a non-ok response
throws; otherwise the JSON value of the response body is returned as the
single data entry, verbatim (no data-URL wrapping). -/
def heuristBranch (env : ImageEnv) : Except String (List String) :=
  match env.heuristResponse with
  | Except.error e => Except.error e
  | Except.ok imageURL => Except.ok [imageURL]

/-- generation.ts lines 910-967, the Together branch: a missing or
non-array `data` field throws; each entry must carry a URL (else throw),
whose fetched bytes become a `data:image/jpeg;base64,` entry; an empty
final list throws. -/
def togetherBranch (env : ImageEnv) : Except String (List String) :=
  match env.togetherResponse with
  | Except.error e => Except.error e
  | Except.ok none => Except.error "Invalid response format from Together AI"
  | Except.ok (some images) =>
    match mapEx (fun image =>
      match image.url with
      | none => Except.error "Missing URL in Together AI response"
      | some u =>
        match env.fetchImage u with
        | Except.error e => Except.error e
        | Except.ok b64 => Except.ok ("data:image/jpeg;base64," ++ b64)) images with
    | Except.error e => Except.error e
    | Except.ok base64s =>
      if base64s.isEmpty then Except.error "No images generated by Together AI"
      else Except.ok base64s

/-- generation.ts lines 968-1020, the Fal branch: every returned image
URL is fetched and wrapped as `data:` ++ its content type ++
`;base64,` ++ the fetched bytes' base64. -/
def falBranch (env : ImageEnv) : Except String (List String) :=
  match env.falResponse with
  | Except.error e => Except.error e
  | Except.ok images =>
    mapEx (fun image =>
      match env.fetchImage image.url with
      | Except.error e => Except.error e
      | Except.ok b64 =>
        Except.ok ("data:" ++ image.content_type ++ ";base64," ++ b64)) images

/-- generation.ts lines 1021-1061, the Venice branch: a missing or
non-array `images` field throws; an empty base64 string throws;
otherwise each string is wrapped as `data:image/png;base64,`. -/
def veniceBranch (env : ImageEnv) : Except String (List String) :=
  match env.veniceResponse with
  | Except.error e => Except.error e
  | Except.ok none => Except.error "Invalid response format from Venice AI"
  | Except.ok (some images) =>
    mapEx (fun base64String =>
      if base64String = "" then Except.error "Empty base64 string in Venice AI response"
      else Except.ok ("data:image/png;base64," ++ base64String)) images

/-- generation.ts lines 1062-1100, the Nineteen AI branch: same shape as
the Venice branch. -/
def nineteenBranch (env : ImageEnv) : Except String (List String) :=
  match env.nineteenResponse with
  | Except.error e => Except.error e
  | Except.ok none => Except.error "Invalid response format from Nineteen AI"
  | Except.ok (some images) =>
    mapEx (fun base64String =>
      if base64String = "" then Except.error "Empty base64 string in Nineteen AI response"
      else Except.ok ("data:image/png;base64," ++ base64String)) images

/-- generation.ts lines 1101-1161, the Livepeer branch: a missing
gateway credential or an invalid gateway URL throws; a missing or empty
`images` list throws; each image URL (prefixed with the gateway when it
does not contain "http") is fetched and wrapped as
`data:image/jpeg;base64,`. The inner catch of this branch returns the
same structured failure the outer catch produces, so both are one
`Except.error` here. -/
def livepeerBranch (env : ImageEnv) (apiKey : Option String) : Except String (List String) :=
  match apiKey with
  | none => Except.error "Livepeer Gateway is not defined"
  | some gateway =>
    if env.urlOk gateway = false then Except.error "Invalid Livepeer Gateway URL protocol"
    else
      match env.livepeerResponse with
      | Except.error e => Except.error e
      | Except.ok none => Except.error "No images generated"
      | Except.ok (some images) =>
        if images.isEmpty then Except.error "No images generated"
        else
          mapEx (fun image =>
            let imageUrl :=
              if 2 ≤ (image.url.splitOn "http").length then image.url
              else gateway ++ image.url
            match env.fetchImage imageUrl with
            | Except.error e => Except.error e
            | Except.ok b64 => Except.ok ("data:image/jpeg;base64," ++ b64)) images

/-- generation.ts lines 1163-1170: the default branch's size validation.
A requested `width x height` outside the fixed allow-list is replaced by
`1024x1024` before the provider call. -/
def coerceSize (width height : Nat) : String :=
  let targetSize := toString width ++ "x" ++ toString height
  if targetSize ≠ "1024x1024" ∧ targetSize ≠ "1792x1024" ∧ targetSize ≠ "1024x1792" then
    "1024x1024"
  else targetSize

/-- generation.ts lines 1162-1188, the default (no explicit provider
match) branch: validate the size, require `OPENAI_API_KEY` (a missing or
empty value throws), call the fallback provider with the coerced size,
and wrap each returned `b64_json` as `data:image/png;base64,`. -/
def defaultOpenAIBranch (env : ImageEnv) (size : String) : Except String (List String) :=
  match env.getSetting "OPENAI_API_KEY" with
  | none => Except.error "OPENAI_API_KEY is not set"
  | some openaiApiKey =>
    if openaiApiKey = "" then Except.error "OPENAI_API_KEY is not set"
    else
      match env.openaiImages size with
      | Except.error e => Except.error e
      | Except.ok images =>
        Except.ok (images.map (fun image => "data:image/png;base64," ++ image))

/-- generation.ts lines 872-1189, the provider dispatch inside the try
block: the chain of provider tests, ending in the default branch with
the coerced size. -/
def generateImageCore (env : ImageEnv) (req : ImageRequest) (apiKey : Option String) :
    Except String (List String) :=
  if env.imageModelProvider = ModelProviderName.HEURIST then heuristBranch env
  else if env.imageModelProvider = ModelProviderName.TOGETHER ∨
      env.imageModelProvider = ModelProviderName.LLAMACLOUD then togetherBranch env
  else if env.imageModelProvider = ModelProviderName.FAL then falBranch env
  else if env.imageModelProvider = ModelProviderName.VENICE then veniceBranch env
  else if env.imageModelProvider = ModelProviderName.NINETEEN_AI then nineteenBranch env
  else if env.imageModelProvider = ModelProviderName.LIVEPEER then livepeerBranch env apiKey
  else defaultOpenAIBranch env (coerceSize req.width req.height)

/-- generation.ts line 831 calls `getImageModelSettings`, but the
file's import block (lines 1-42) brings nothing in from models.ts —
the related `getModelSettings` calls at lines 417, 608 and 770 are
commented out for the same reason — so, as with `modelSettings` in
`generateTrueOrFalse`, the identifier is not bound in scope and the
lookup fails: the binding modelled here is the absent one. -/
def getImageModelSettingsInScope : Option Unit := none

/-- generation.ts lines 807-1194, `generateImage`: line 831 evaluates
`getImageModelSettings(runtime.imageModelProvider)` BEFORE the try
block at line 872, but that identifier is unbound (never imported), so
every call raises a ReferenceError to its caller with no request
dispatched, no size coerced and no credential resolved. The body that
would run had the import existed follows: falsy settings return a
structured failure at once (lines 832-835), and otherwise the
credential is resolved and the dispatch runs inside the try whose
outermost catch (lines 1190-1193) converts every thrown error into a
`success := false` result. -/
def generateImage (env : ImageEnv) (req : ImageRequest) : ImageCallOutcome :=
  match getImageModelSettingsInScope with
  | none => ImageCallOutcome.raised
  | some _getImageModelSettings =>
    match env.modelSettings with
    | none =>
      ImageCallOutcome.returned
        { success := false, data := none, error := some "No model settings available" }
    | some _modelSettings =>
      match generateImageCore env req (resolveImageApiKey env) with
      | Except.ok base64s =>
        ImageCallOutcome.returned { success := true, data := some base64s, error := none }
      | Except.error e =>
        ImageCallOutcome.returned { success := false, data := none, error := some e }

/-- Whether the second character list begins with the first (executable
inside the kernel). -/
def charsBeginWith : List Char → List Char → Bool
  | [], _ => true
  | _ :: _, [] => false
  | p :: ps, c :: cs => p = c && charsBeginWith ps cs

/-- Split a character list at the first occurrence of a separator:
the part before it and the part after it, or none when the separator
does not occur. -/
def splitFirstAux (sep : List Char) : List Char → Option (List Char × List Char)
  | [] => none
  | c :: cs =>
    if charsBeginWith sep (c :: cs) then some ([], (c :: cs).drop sep.length)
    else
      match splitFirstAux sep cs with
      | none => none
      | some (pre, post) => some (c :: pre, post)

/-- The spec's pattern for a successful image entry, as an executable
check: `data:` ++ a non-empty mime type ++ `;base64,` ++ a non-empty
payload. -/
def isDataUrl (s : String) : Bool :=
  match splitFirstAux (";base64,").data s.data with
  | some (head, payload) =>
    charsBeginWith ("data:").data head && decide (5 < head.length) && decide (payload ≠ [])
  | none => false

/-- generation.ts lines 1196-1219, `generateCaption`: with no registered
image-description service, raise at once (zero service calls); with one,
delegate a single time, trim the returned title and description on
success, and pass a service failure through unchanged. The second
component counts calls made to the service. -/
def generateCaption (service : Option (String → Except String (String × String)))
    (imageUrl : String) : Except String (String × String) × Nat :=
  match service with
  | none => (Except.error "Image description service not found", 0)
  | some describeImage =>
    match describeImage imageUrl with
    | Except.ok resp => (Except.ok (jsTrim resp.1, jsTrim resp.2), 1)
    | Except.error e => (Except.error e, 1)

/-- A Solana keypair as the embedding sees it: the secret-key bytes the
external `Keypair.fromSecretKey` accepted. -/
structure Keypair where
  secretKey : List Nat
deriving DecidableEq, Repr

/-- A Solana public key as the embedding sees it: the string the external
`PublicKey` constructor accepted. -/
structure PublicKey where
  base58 : String
deriving DecidableEq, Repr

/-- keypairUtils.ts lines 5-8, `KeypairResult`: either field may be set. -/
structure KeypairResult where
  keypair : Option Keypair := none
  publicKey : Option PublicKey := none
deriving DecidableEq, Repr

/-- The external libraries keypairUtils.ts calls, abstracted:
`bs58Decode` is `bs58.decode` (none = the throw on a character outside
the base58 alphabet); `base64Decode` is Node's
`Buffer.from(s, "base64")`, which never throws; `fromSecretKey` is
`Keypair.fromSecretKey` (none = its throw, e.g. on a byte array that is
not a valid 64-byte secret key); `parsePublicKey` is the `PublicKey`
constructor (none = its throw on an invalid key string). -/
structure SolanaLib where
  bs58Decode : String → Option (List Nat)
  base64Decode : String → List Nat
  fromSecretKey : List Nat → Option Keypair
  parsePublicKey : String → Option PublicKey

/-- keypairUtils.ts lines 16-57, `getWalletKey`. With
`requirePrivateKey`: read `SOLANA_PRIVATE_KEY` then `WALLET_PRIVATE_KEY`
(nullish coalescing); a missing or empty string throws "Private key not
found in settings"; then try base58 decoding and `fromSecretKey`, and on
ANY failure in that try (decode or key construction) fall back to the
base64 bytes and `fromSecretKey` again, throwing "Invalid private key
format" only when the second attempt also fails. Without it: read
`SOLANA_PUBLIC_KEY` then `WALLET_PUBLIC_KEY` (never the private-key
settings); a missing or empty string throws; otherwise the `PublicKey`
constructor runs unprotected, so its own failure propagates. -/
def getWalletKey (lib : SolanaLib) (getSetting : String → Option String)
    (requirePrivateKey : Bool) : Except String KeypairResult :=
  if requirePrivateKey then
    match (getSetting "SOLANA_PRIVATE_KEY").orElse fun _ => getSetting "WALLET_PRIVATE_KEY" with
    | none => Except.error "Private key not found in settings"
    | some privateKeyString =>
      if privateKeyString = "" then Except.error "Private key not found in settings"
      else
        match (lib.bs58Decode privateKeyString).bind lib.fromSecretKey with
        | some kp => Except.ok { keypair := some kp }
        | none =>
          match lib.fromSecretKey (lib.base64Decode privateKeyString) with
          | some kp => Except.ok { keypair := some kp }
          | none => Except.error "Invalid private key format"
  else
    match (getSetting "SOLANA_PUBLIC_KEY").orElse fun _ => getSetting "WALLET_PUBLIC_KEY" with
    | none =>
      Except.error
        "Solana Public key not found in settings, but plugin was loaded, please set SOLANA_PUBLIC_KEY"
    | some publicKeyString =>
      if publicKeyString = "" then
        Except.error
          "Solana Public key not found in settings, but plugin was loaded, please set SOLANA_PUBLIC_KEY"
      else
        match lib.parsePublicKey publicKeyString with
        | some pk => Except.ok { publicKey := some pk }
        | none => Except.error "Invalid public key input"

/-! Concrete instances used by witnesses and counterexamples. -/

/-- A parse accepting exactly the text "ok". -/
def cParse2 : String → Option Nat := fun s => if s = "ok" then some 0 else none

/-- A string-array parse accepting exactly the text "ok". -/
def cParseArr2 : String → Option (List String) := fun s => if s = "ok" then some ["a"] else none

/-- An object-array parse accepting exactly the text "ok". -/
def cParseObj2 : String → Option (List Nat) := fun s => if s = "ok" then some [7] else none

/-- A provider returning an unparseable text once, then a parseable one. -/
def cProvider2 : Nat → Except Unit String := fun i => Except.ok (if i = 0 then "bad" else "ok")

/-- A provider throwing once, then returning a parseable text. -/
def cProviderErr2 : Nat → Except Unit String :=
  fun i => if i = 0 then Except.error () else Except.ok "ok"

/-- A single-shot text environment whose provider answers "hi". -/
def cTextEnv3 : TextEnv :=
  { verifiableInference := false, adapter := none, provider := Except.ok "hi" }

/-- A parse rejecting the empty string (as the JSON-object parse does). -/
def cParse4 : String → Option Nat := fun s => if s = "ok4" then some 1 else none

/-- An arbitrary provider stream. -/
def cProvider4 : Nat → Except Unit String := fun _ => Except.ok "alpha"

/-- A provider stream that always throws. -/
def cProvider4b : Nat → Except Unit String := fun _ => Except.error ()

/-- An image request with a size outside the allow-list. -/
def cImageReq5 : ImageRequest := { prompt := "a cat in a hat", width := 999, height := 999 }

/-- An image environment whose configured provider matches no explicit
branch; its fallback provider echoes the requested size as its only
`b64_json` entry, so the dispatched size is observable in the result. -/
def cImageEnv5 : ImageEnv :=
  { imageModelProvider := ModelProviderName.ANTHROPIC
    modelProvider := ModelProviderName.OPENAI
    token := some "runtime-token"
    getSetting := fun k => if k = "OPENAI_API_KEY" then some "sk-test" else none
    modelSettings := some { name := "dall-e-3" }
    heuristResponse := Except.error "unused"
    togetherResponse := Except.error "unused"
    falResponse := Except.error "unused"
    veniceResponse := Except.error "unused"
    nineteenResponse := Except.error "unused"
    livepeerResponse := Except.error "unused"
    urlOk := fun _ => true
    fetchImage := fun _ => Except.error "unused"
    openaiImages := fun size => Except.ok [size] }

/-- An image request for the Heurist counterexample. -/
def cImageReq7 : ImageRequest := { prompt := "heurist prompt", width := 512, height := 512 }

/-- An image environment on the Heurist branch whose sequencer answers
with a plain image URL (the JSON value of its response body). -/
def cImageEnv7 : ImageEnv :=
  { imageModelProvider := ModelProviderName.HEURIST
    modelProvider := ModelProviderName.OPENAI
    token := none
    getSetting := fun k => if k = "HEURIST_API_KEY" then some "heurist-key" else none
    modelSettings := some { name := "heurist-model" }
    heuristResponse := Except.ok "http://img.example/1.png"
    togetherResponse := Except.error "unused"
    falResponse := Except.error "unused"
    veniceResponse := Except.error "unused"
    nineteenResponse := Except.error "unused"
    livepeerResponse := Except.error "unused"
    urlOk := fun _ => true
    fetchImage := fun _ => Except.error "unused"
    openaiImages := fun _ => Except.error "unused" }

/-- An image request for the credential claim. -/
def cImageReq9 : ImageRequest := { prompt := "fal prompt", width := 1024, height := 1024 }

/-- An image environment where the selected provider (Fal) has no
credential while another provider's credential (OpenAI) is present. -/
def cImageEnv9 : ImageEnv :=
  { imageModelProvider := ModelProviderName.FAL
    modelProvider := ModelProviderName.OPENAI
    token := some "text-token"
    getSetting := fun k => if k = "OPENAI_API_KEY" then some "sk-live" else none
    modelSettings := some { name := "fal-model" }
    heuristResponse := Except.error "unused"
    togetherResponse := Except.error "unused"
    falResponse := Except.error "unused"
    veniceResponse := Except.error "unused"
    nineteenResponse := Except.error "unused"
    livepeerResponse := Except.error "unused"
    urlOk := fun _ => true
    fetchImage := fun _ => Except.error "unused"
    openaiImages := fun _ => Except.error "unused" }

/-- An image-description service succeeding on one URL and failing on
the others. -/
def cService8 : String → Except String (String × String) :=
  fun u => if u = "http://img/ok.png" then Except.ok ("  Title ", " Desc  ") else Except.error "boom"

/-- A stand-in for the external decoding libraries at the counterexample
key "2g": both valid base58 (value 97, one byte) and decodable base64
(one byte 218), so neither decode throws, while the one-byte arrays are
rejected by `Keypair.fromSecretKey` (not 64 bytes). -/
def cLib10 : SolanaLib :=
  { bs58Decode := fun s => if s = "2g" then some [97] else none
    base64Decode := fun s => if s = "2g" then [218] else []
    fromSecretKey := fun bytes => if bytes.length = 64 then some { secretKey := bytes } else none
    parsePublicKey := fun s => some { base58 := s } }

/-- Settings holding the private key "2g". -/
def cSettings10 : String → Option String :=
  fun k => if k = "SOLANA_PRIVATE_KEY" then some "2g" else none

/-- Library stand-in for the amended-claim witness: "good58" is valid
base58 for a 64-byte key, "b64key" decodes only under base64 to a
64-byte key, anything else decodes to bytes `fromSecretKey` rejects. -/
def cLib10w : SolanaLib :=
  { bs58Decode := fun s => if s = "good58" then some (List.replicate 64 1) else none
    base64Decode := fun s => if s = "b64key" then List.replicate 64 2 else [0]
    fromSecretKey := fun bytes => if bytes.length = 64 then some { secretKey := bytes } else none
    parsePublicKey := fun s => if s = "PubKeyOK" then some { base58 := s } else none }

/-- Settings with a base58 private key under `SOLANA_PRIVATE_KEY`. -/
def cSettingsA10 : String → Option String :=
  fun k => if k = "SOLANA_PRIVATE_KEY" then some "good58" else none

/-- Settings with a base64 private key only under `WALLET_PRIVATE_KEY`. -/
def cSettingsB10 : String → Option String :=
  fun k => if k = "WALLET_PRIVATE_KEY" then some "b64key" else none

/-- Settings with an undecodable private key. -/
def cSettingsC10 : String → Option String :=
  fun k => if k = "SOLANA_PRIVATE_KEY" then some "junk" else none

/-- Settings with nothing set. -/
def cSettingsNone10 : String → Option String := fun _ => none

/-- Settings with a valid public key. -/
def cSettingsF10 : String → Option String :=
  fun k => if k = "SOLANA_PUBLIC_KEY" then some "PubKeyOK" else none

/-- Settings agreeing with `cSettingsH10` on both public keys while
holding a different private key. -/
def cSettingsG10 : String → Option String :=
  fun k =>
    if k = "SOLANA_PUBLIC_KEY" then some "PubKeyOK"
    else if k = "SOLANA_PRIVATE_KEY" then some "privOne" else none

/-- Settings agreeing with `cSettingsG10` on both public keys while
holding a different private key. -/
def cSettingsH10 : String → Option String :=
  fun k =>
    if k = "SOLANA_PUBLIC_KEY" then some "PubKeyOK"
    else if k = "SOLANA_PRIVATE_KEY" then some "privTwo" else none

/-! Helper lemmas about the retry loops and the list mapper. -/

/-- Arithmetic step shared by the backoff sums: one failure's delay `d`
plus the doubled-rate remainder equals the rate-`d` sum one level up. -/
theorem backoff_step (a d N : Nat) :
    a + d + d * 2 * (2 ^ N - 1) = a + d * (2 ^ (N + 1) - 1) := by
  have h1 : 0 < 2 ^ N := pow_pos (by norm_num) N
  obtain ⟨k, hk⟩ : ∃ k, 2 ^ N = k + 1 := ⟨2 ^ N - 1, by omega⟩
  have h2 : 2 ^ (N + 1) = 2 * k + 2 := by rw [pow_succ, hk]; ring
  rw [hk, h2]
  have h3 : k + 1 - 1 = k := by omega
  have h4 : 2 * k + 2 - 1 = 2 * k + 1 := by omega
  rw [h3, h4]
  ring

/-- A style-A retry loop (shared skeleton) on `N` unsuccessful attempts
followed by a success returns the parsed value after exactly `N + 1`
calls, accumulating `d * (2 ^ N - 1)` of delay on top of `a` when the
current retry delay is `d`. -/
theorem retryLoopA_ok {α : Type} (parse : String → Option α) (call : Nat → Except Unit String) :
    ∀ (N : Nat) (v : α) (fuel c d a : Nat), N < fuel →
      (∀ i, i < N → attemptOf parse call (c + i) = none) →
      attemptOf parse call (c + N) = some v →
      retryLoopA parse call fuel c d a = RunResult.ok v (c + N + 1) (a + d * (2 ^ N - 1)) := by
  intro N
  induction N with
  | zero =>
    intro v fuel c d a hfuel _ hsucc
    match fuel, hfuel with
    | fuel + 1, _ =>
      rw [show c + 0 = c from rfl] at hsucc
      cases hc : call c with
      | ok t =>
        simp only [attemptOf, hc] at hsucc
        simp [retryLoopA, hc, hsucc]
      | error e => simp [attemptOf, hc] at hsucc
  | succ N ih =>
    intro v fuel c d a hfuel hfail hsucc
    match fuel, hfuel with
    | fuel + 1, hfuel =>
      have h0 : attemptOf parse call c = none := by
        have h := hfail 0 (by omega)
        rwa [show c + 0 = c from rfl] at h
      have hrest : ∀ i, i < N → attemptOf parse call (c + 1 + i) = none := by
        intro i hi
        have h := hfail (i + 1) (by omega)
        rwa [show c + (i + 1) = c + 1 + i from by omega] at h
      have hsucc1 : attemptOf parse call (c + 1 + N) = some v := by
        rwa [show c + (N + 1) = c + 1 + N from by omega] at hsucc
      have hstep := ih v fuel (c + 1) (d * 2) (a + d) (by omega) hrest hsucc1
      have hcalls : c + 1 + N + 1 = c + (N + 1) + 1 := by omega
      have hdelay := backoff_step a d N
      cases hc : call c with
      | ok t =>
        simp only [attemptOf, hc] at h0
        simp only [retryLoopA, hc, h0]
        rw [hstep, hcalls, hdelay]
      | error e =>
        simp only [retryLoopA, hc]
        rw [hstep, hcalls, hdelay]

/-- The `generateMessageResponse` loop on `N` returned-but-unparseable
responses followed by a success: `N + 1` calls, the accumulated delay
unchanged (the parse-failure path sleeps nothing). -/
theorem messageResponseLoop_ok_parse {α : Type} (parse : String → Option α)
    (call : Nat → Except Unit String) :
    ∀ (N : Nat) (v : α) (fuel c r a : Nat), N < fuel →
      (∀ i, i < N → attemptOf parse call (c + i) = none ∧ call (c + i) ≠ Except.error ()) →
      attemptOf parse call (c + N) = some v →
      messageResponseLoop parse call fuel c r a = RunResult.ok v (c + N + 1) a := by
  intro N
  induction N with
  | zero =>
    intro v fuel c r a hfuel _ hsucc
    match fuel, hfuel with
    | fuel + 1, _ =>
      rw [show c + 0 = c from rfl] at hsucc
      cases hc : call c with
      | ok t =>
        simp only [attemptOf, hc] at hsucc
        simp [messageResponseLoop, hc, hsucc]
      | error e => simp [attemptOf, hc] at hsucc
  | succ N ih =>
    intro v fuel c r a hfuel hfail hsucc
    match fuel, hfuel with
    | fuel + 1, hfuel =>
      obtain ⟨h0, hne⟩ := hfail 0 (by omega)
      rw [show c + 0 = c from rfl] at h0 hne
      have hrest : ∀ i, i < N →
          attemptOf parse call (c + 1 + i) = none ∧ call (c + 1 + i) ≠ Except.error () := by
        intro i hi
        have h := hfail (i + 1) (by omega)
        rwa [show c + (i + 1) = c + 1 + i from by omega] at h
      have hsucc1 : attemptOf parse call (c + 1 + N) = some v := by
        rwa [show c + (N + 1) = c + 1 + N from by omega] at hsucc
      have hstep := ih v fuel (c + 1) r a (by omega) hrest hsucc1
      have hcalls : c + 1 + N + 1 = c + (N + 1) + 1 := by omega
      cases hc : call c with
      | ok t =>
        simp only [attemptOf, hc] at h0
        simp only [messageResponseLoop, hc, h0]
        rw [hstep, hcalls]
      | error e =>
        exact absurd hc hne

/-- The `generateMessageResponse` loop on `N` thrown errors followed by
a success: `N + 1` calls, and the delay grows by `2 * r * (2 ^ N - 1)`
(the error path doubles `retryLength` before sleeping it). -/
theorem messageResponseLoop_ok_errors {α : Type} (parse : String → Option α)
    (call : Nat → Except Unit String) :
    ∀ (N : Nat) (v : α) (fuel c r a : Nat), N < fuel →
      (∀ i, i < N → call (c + i) = Except.error ()) →
      attemptOf parse call (c + N) = some v →
      messageResponseLoop parse call fuel c r a =
        RunResult.ok v (c + N + 1) (a + 2 * r * (2 ^ N - 1)) := by
  intro N
  induction N with
  | zero =>
    intro v fuel c r a hfuel _ hsucc
    match fuel, hfuel with
    | fuel + 1, _ =>
      rw [show c + 0 = c from rfl] at hsucc
      cases hc : call c with
      | ok t =>
        simp only [attemptOf, hc] at hsucc
        simp [messageResponseLoop, hc, hsucc]
      | error e => simp [attemptOf, hc] at hsucc
  | succ N ih =>
    intro v fuel c r a hfuel hfail hsucc
    match fuel, hfuel with
    | fuel + 1, hfuel =>
      have h0 : call c = Except.error () := by
        have h := hfail 0 (by omega)
        rwa [show c + 0 = c from rfl] at h
      have hrest : ∀ i, i < N → call (c + 1 + i) = Except.error () := by
        intro i hi
        have h := hfail (i + 1) (by omega)
        rwa [show c + (i + 1) = c + 1 + i from by omega] at h
      have hsucc1 : attemptOf parse call (c + 1 + N) = some v := by
        rwa [show c + (N + 1) = c + 1 + N from by omega] at hsucc
      have hstep := ih v fuel (c + 1) (r * 2) (a + r * 2) (by omega) hrest hsucc1
      have hcalls : c + 1 + N + 1 = c + (N + 1) + 1 := by omega
      have hdelay : a + r * 2 + 2 * (r * 2) * (2 ^ N - 1) = a + 2 * r * (2 ^ (N + 1) - 1) := by
        have h := backoff_step a (2 * r) N
        calc a + r * 2 + 2 * (r * 2) * (2 ^ N - 1)
            = a + 2 * r + 2 * r * 2 * (2 ^ N - 1) := by ring_nf
          _ = a + 2 * r * (2 ^ (N + 1) - 1) := h
      simp only [messageResponseLoop, h0]
      rw [hstep, hcalls, hdelay]

/-- With an empty context every iteration of the
`generateMessageResponse` loop gets `""` back (the single-shot call
short-circuits), the parse rejects it, and the loop spins without delay. -/
theorem messageResponseLoop_empty {α : Type} (parse : String → Option α)
    (provider : Nat → Except Unit String) (hparse : parse "" = none) :
    ∀ (fuel c r a : Nat),
      messageResponseLoop parse (generateTextCall provider "") fuel c r a =
        RunResult.retrying (c + fuel) a := by
  intro fuel
  induction fuel with
  | zero => intro c r a; simp [messageResponseLoop]
  | succ fuel ih =>
    intro c r a
    simp only [messageResponseLoop, generateTextCall, if_true, hparse, ih (c + 1) r a]
    simp only [RunResult.retrying.injEq, and_true]
    omega

/-! Claim theorems. -/

/-- C1: the claim says every retrying generator (generateShouldRespond,
generateTrueOrFalse, generateTextArray, generateObjectArray /
generateMessageResponse, generateTweetActions) either returns a parsed
value or retries indefinitely, never raising to its caller. The code
contradicts this for `generateTrueOrFalse`: it evaluates
`modelSettings.stop` with `modelSettings` undefined in scope before the
retry loop, so every call, on every input, raises with zero underlying
calls made. -/
theorem claim1_generateTrueOrFalse_always_raises
    (parse : String → Option Bool) (provider : Nat → Except Unit String)
    (context : String) (fuel : Nat) :
    generateTrueOrFalseRun parse provider context fuel = RunResult.raised 0 := rfl

/-- C2 counterexample: `generateMessageResponse` on one unparseable
response followed by a parseable one (N = 1) makes 2 underlying calls
but requests 0 ms of cumulative delay, not the claimed
1000 * (2 ^ 1 - 1) = 1000 ms. -/
theorem claim2_counterexample_messageResponse_zero_delay :
    generateMessageResponseRun cParse2 cProvider2 "ctx" 3 = RunResult.ok 0 2 0 ∧
    RunResult.ok (0 : Nat) 2 0 ≠ RunResult.ok (0 : Nat) 2 (1000 * (2 ^ 1 - 1)) := by
  constructor
  · decide
  · decide

/-- C2 amended: for generateShouldRespond, generateTweetActions,
generateTextArray and generateObjectArray, N unsuccessful attempts
followed by a success make exactly N + 1 underlying calls with delay
starting at 1000 ms, doubling after every unsuccessful attempt, total
1000 * (2 ^ N - 1) ms. generateMessageResponse also makes N + 1 calls,
but retries unparseable responses with zero delay, and on N thrown
errors it doubles before sleeping, accumulating 2000 * (2 ^ N - 1) ms. -/
theorem claim2_amended_backoff {α : Type} (pTrim : String → Option α)
    (pArr : String → Option (List String)) (pObj : String → Option (List α))
    (pMsg : String → Option α)
    (provider providerE : Nat → Except Unit String) (context : String)
    (N fuel : Nat) (vS : α) (vA : List String) (vO : List α) (vM vE : α)
    (hctx : context ≠ "") (hfuel : N < fuel)
    (hSf : ∀ i, i < N →
      attemptOf (fun r => pTrim (jsTrim r)) (generateTextCall provider context) i = none)
    (hSs : attemptOf (fun r => pTrim (jsTrim r)) (generateTextCall provider context) N = some vS)
    (hAf : ∀ i, i < N → attemptOf pArr (generateTextCall provider context) i = none)
    (hAs : attemptOf pArr (generateTextCall provider context) N = some vA)
    (hOf : ∀ i, i < N → attemptOf pObj (generateTextCall provider context) i = none)
    (hOs : attemptOf pObj (generateTextCall provider context) N = some vO)
    (hMf : ∀ i, i < N → attemptOf pMsg (generateTextCall provider context) i = none ∧
      generateTextCall provider context i ≠ Except.error ())
    (hMs : attemptOf pMsg (generateTextCall provider context) N = some vM)
    (hEf : ∀ i, i < N → generateTextCall providerE context i = Except.error ())
    (hEs : attemptOf pMsg (generateTextCall providerE context) N = some vE) :
    generateShouldRespondRun pTrim provider context fuel =
      RunResult.ok vS (N + 1) (1000 * (2 ^ N - 1)) ∧
    generateTweetActionsRun pTrim provider context fuel =
      RunResult.ok vS (N + 1) (1000 * (2 ^ N - 1)) ∧
    generateTextArrayRun pArr provider context fuel =
      RunResult.ok vA (N + 1) (1000 * (2 ^ N - 1)) ∧
    generateObjectArrayRun pObj provider context fuel =
      RunResult.ok vO (N + 1) (1000 * (2 ^ N - 1)) ∧
    generateMessageResponseRun pMsg provider context fuel = RunResult.ok vM (N + 1) 0 ∧
    generateMessageResponseRun pMsg providerE context fuel =
      RunResult.ok vE (N + 1) (2000 * (2 ^ N - 1)) := by
  refine ⟨?_, ?_, ?_, ?_, ?_, ?_⟩
  · have h := retryLoopA_ok (fun r => pTrim (jsTrim r)) (generateTextCall provider context)
      N vS fuel 0 1000 0 hfuel (fun i hi => by simpa using hSf i hi) (by simpa using hSs)
    simpa [generateShouldRespondRun] using h
  · have h := retryLoopA_ok (fun r => pTrim (jsTrim r)) (generateTextCall provider context)
      N vS fuel 0 1000 0 hfuel (fun i hi => by simpa using hSf i hi) (by simpa using hSs)
    simpa [generateTweetActionsRun] using h
  · have h := retryLoopA_ok pArr (generateTextCall provider context)
      N vA fuel 0 1000 0 hfuel (fun i hi => by simpa using hAf i hi) (by simpa using hAs)
    unfold generateTextArrayRun
    rw [if_neg hctx]
    simpa using h
  · have h := retryLoopA_ok pObj (generateTextCall provider context)
      N vO fuel 0 1000 0 hfuel (fun i hi => by simpa using hOf i hi) (by simpa using hOs)
    unfold generateObjectArrayRun
    rw [if_neg hctx]
    simpa using h
  · have h := messageResponseLoop_ok_parse pMsg (generateTextCall provider context)
      N vM fuel 0 1000 0 hfuel (fun i hi => by simpa using hMf i hi) (by simpa using hMs)
    simpa [generateMessageResponseRun] using h
  · have h := messageResponseLoop_ok_errors pMsg (generateTextCall providerE context)
      N vE fuel 0 1000 0 hfuel (fun i hi => by simpa using hEf i hi) (by simpa using hEs)
    simpa [generateMessageResponseRun] using h

/-- C2 witness at N = 1: one failure then success on every generator,
exhibiting 1000 ms for the four uniform-backoff generators, 0 ms for
generateMessageResponse on a parse failure, and 2000 ms for it on a
thrown error. -/
theorem claim2_amended_backoff_witness :
    generateShouldRespondRun cParse2 cProvider2 "ctx" 3 = RunResult.ok 0 2 1000 ∧
    generateTweetActionsRun cParse2 cProvider2 "ctx" 3 = RunResult.ok 0 2 1000 ∧
    generateTextArrayRun cParseArr2 cProvider2 "ctx" 3 = RunResult.ok ["a"] 2 1000 ∧
    generateObjectArrayRun cParseObj2 cProvider2 "ctx" 3 = RunResult.ok [7] 2 1000 ∧
    generateMessageResponseRun cParse2 cProvider2 "ctx" 3 = RunResult.ok 0 2 0 ∧
    generateMessageResponseRun cParse2 cProviderErr2 "ctx" 3 = RunResult.ok 0 2 2000 := by
  have h := claim2_amended_backoff cParse2 cParseArr2 cParseObj2 cParse2
    cProvider2 cProviderErr2 "ctx" 1 3 0 ["a"] [7] 0 0
    (by decide) (by decide) (by decide) (by decide) (by decide) (by decide)
    (by decide) (by decide) (by decide) (by decide) (by decide) (by decide)
  exact h

/-- C3: `generateText` on an empty prompt returns the empty string with
zero outbound requests; on a non-empty prompt it issues exactly one
outbound request and yields either a string or a raised error (never a
third kind of value). -/
theorem claim3_generateText_empty_short_circuit_and_string_result
    (env : TextEnv) (context : String) (hctx : context ≠ "") :
    generateText env "" = (Except.ok "", 0) ∧
    (generateText env context).2 = 1 ∧
    ((generateText env context).1 = Except.error () ∨
      ∃ text, (generateText env context).1 = Except.ok text) := by
  constructor
  · simp [generateText]
  unfold generateText
  rw [if_neg hctx]
  split
  · split
    · split
      · exact ⟨rfl, Or.inr ⟨_, rfl⟩⟩
      · exact ⟨rfl, Or.inl rfl⟩
    · exact ⟨rfl, Or.inl rfl⟩
    · exact ⟨rfl, Or.inl rfl⟩
  · split
    · exact ⟨rfl, Or.inr ⟨_, rfl⟩⟩
    · exact ⟨rfl, Or.inl rfl⟩

/-- C3 witness on the prompt "hello" against a provider answering "hi". -/
theorem claim3_generateText_witness :
    generateText cTextEnv3 "" = (Except.ok "", 0) ∧
    (generateText cTextEnv3 "hello").2 = 1 ∧
    ((generateText cTextEnv3 "hello").1 = Except.error () ∨
      ∃ text, (generateText cTextEnv3 "hello").1 = Except.ok text) :=
  claim3_generateText_empty_short_circuit_and_string_result cTextEnv3 "hello" (by decide)

/-- C4 counterexample: `generateMessageResponse` with an empty prompt
does not return the parser's empty-result value immediately; after 4
loop iterations it has issued 4 underlying `generateText` calls and is
still retrying (its parse rejects the empty string the short-circuited
calls return). -/
theorem claim4_counterexample_messageResponse_empty_prompt_loops :
    generateMessageResponseRun cParse4 cProvider4 "" 4 = RunResult.retrying 4 0 ∧
    cParse4 "" = none := by
  constructor
  · decide
  · decide

/-- C4 amended: generateTextArray and generateObjectArray return `[]`
immediately on an empty prompt with zero underlying calls;
generateMessageResponse has no empty-prompt short-circuit — it loops
with zero delay, never returning, each iteration issuing an underlying
call whose empty-prompt short-circuit keeps the provider uncontacted
(the run does not depend on the provider stream at all). -/
theorem claim4_amended_empty_prompt {α : Type} (pArr : String → Option (List String))
    (pObj : String → Option (List α)) (pMsg : String → Option α)
    (provider providerB : Nat → Except Unit String) (fuel : Nat)
    (hpMsg : pMsg "" = none) :
    generateTextArrayRun pArr provider "" fuel = RunResult.ok [] 0 0 ∧
    generateObjectArrayRun pObj provider "" fuel = RunResult.ok [] 0 0 ∧
    generateMessageResponseRun pMsg provider "" fuel = RunResult.retrying fuel 0 ∧
    generateMessageResponseRun pMsg provider "" fuel =
      generateMessageResponseRun pMsg providerB "" fuel := by
  refine ⟨by simp [generateTextArrayRun], by simp [generateObjectArrayRun], ?_, ?_⟩
  · have h := messageResponseLoop_empty pMsg provider hpMsg fuel 0 1000 0
    simpa [generateMessageResponseRun] using h
  · have h1 := messageResponseLoop_empty pMsg provider hpMsg fuel 0 1000 0
    have h2 := messageResponseLoop_empty pMsg providerB hpMsg fuel 0 1000 0
    unfold generateMessageResponseRun
    rw [h1, h2]

/-- C4 witness with fuel 2, against an always-answering provider and an
always-throwing provider (the message-response run cannot tell them
apart on an empty prompt). -/
theorem claim4_amended_empty_prompt_witness :
    generateTextArrayRun cParseArr2 cProvider4 "" 2 = RunResult.ok [] 0 0 ∧
    generateObjectArrayRun cParseObj2 cProvider4 "" 2 = RunResult.ok [] 0 0 ∧
    generateMessageResponseRun cParse4 cProvider4 "" 2 = RunResult.retrying 2 0 ∧
    generateMessageResponseRun cParse4 cProvider4 "" 2 =
      generateMessageResponseRun cParse4 cProvider4b "" 2 :=
  claim4_amended_empty_prompt cParseArr2 cParseObj2 cParse4 cProvider4 cProvider4b 2 (by decide)

/-- C5: the claim says a provider with no explicit branch is routed to
the default branch with out-of-list sizes coerced to 1024x1024. The
code never gets there: every `generateImage` call raises at line 831
(unbound `getImageModelSettings`) before any routing, shown here at the
claim's own 999x999 example input. The second conjunct records what the
(currently unreachable) default branch's validation at lines 1163-1170
would do with that size, matching the claim's intended behavior. -/
theorem claim5_size_coercion_unreachable :
    generateImage cImageEnv5 cImageReq5 = ImageCallOutcome.raised ∧
    coerceSize 999 999 = "1024x1024" := by
  exact ⟨rfl, by decide⟩

/-- C6: the claim says `generateImage` never raises and converts every
failure into a structured result. The code contradicts it: line 831
evaluates the unbound `getImageModelSettings` OUTSIDE the try block at
line 872, so every call, on every input, raises a ReferenceError to its
caller before any branch or catch can run. -/
theorem claim6_generateImage_always_raises (env : ImageEnv) (req : ImageRequest) :
    generateImage env req = ImageCallOutcome.raised := rfl

/-- C7: the claim guarantees a data-URL format for every entry of a
successful result. No call ever returns a result (first conjunct: the
raise at line 831 precedes every branch, shown at a Heurist input), so
the guaranteed format is never delivered; and the (currently
unreachable) Heurist branch at lines 902-909 would return the
provider's JSON value verbatim — a plain URL, not a data URL (second
and third conjuncts). -/
theorem claim7_no_successful_result_and_heurist_verbatim :
    generateImage cImageEnv7 cImageReq7 = ImageCallOutcome.raised ∧
    heuristBranch cImageEnv7 = Except.ok ["http://img.example/1.png"] ∧
    isDataUrl "http://img.example/1.png" = false := by
  exact ⟨rfl, by decide, by decide⟩


/-- C8: `generateCaption` with no registered image-description service
raises at once with zero service calls; with one, it makes a single
call, trims the returned title and description, and passes a service
failure through to the caller unchanged. -/
theorem claim8_generateCaption_contract
    (svc : String → Except String (String × String)) (urlA urlB urlC t d e : String)
    (hok : svc urlB = Except.ok (t, d)) (herr : svc urlC = Except.error e) :
    generateCaption none urlA = (Except.error "Image description service not found", 0) ∧
    generateCaption (some svc) urlB = (Except.ok (jsTrim t, jsTrim d), 1) ∧
    generateCaption (some svc) urlC = (Except.error e, 1) := by
  refine ⟨rfl, ?_, ?_⟩
  · simp [generateCaption, hok]
  · simp [generateCaption, herr]

/-- C8 witness: no service raises with zero calls; a succeeding service
yields the trimmed title/description in one call; a failing one passes
its error through in one call. -/
theorem claim8_generateCaption_witness :
    generateCaption none "http://img/none.png" =
      (Except.error "Image description service not found", 0) ∧
    generateCaption (some cService8) "http://img/ok.png" = (Except.ok ("Title", "Desc"), 1) ∧
    generateCaption (some cService8) "http://img/bad.png" = (Except.error "boom", 1) := by
  have h := claim8_generateCaption_contract cService8 "http://img/none.png"
    "http://img/ok.png" "http://img/bad.png" "  Title " " Desc  " "boom"
    (by decide) (by decide)
  exact ⟨h.1, h.2.1.trans (by decide), h.2.2⟩

/-- C9: the claim describes the credential resolution at lines 841-871
(provider-specific key preferred, ordered fallback chain otherwise).
That code is unreachable: every call raises at line 831 first (first
conjunct, at a Fal-configured input). The remaining conjuncts record
that even the resolution code itself, were it reached, matches the
claim only in the switch's default case: with the image provider Fal
distinct from the text provider, a missing FAL_API_KEY resolves to no
credential at all, although another provider's credential is present
and the fallback chain would have found it. -/
theorem claim9_credential_resolution_unreachable :
    generateImage cImageEnv9 cImageReq9 = ImageCallOutcome.raised ∧
    resolveImageApiKey cImageEnv9 = none ∧
    cImageEnv9.getSetting "OPENAI_API_KEY" = some "sk-live" ∧
    imageApiKeyFallbackChain cImageEnv9.getSetting = some "sk-live" := by
  exact ⟨rfl, by decide, by decide, by decide⟩


/-- C10 counterexample: the private key "2g" decodes under base58 (and
under base64), yet `getWalletKey` throws "Invalid private key format" —
the throw condition is `Keypair.fromSecretKey` rejecting both byte
arrays (here: not 64 bytes), not the decodes failing. -/
theorem claim10_counterexample_decodable_key_still_throws :
    getWalletKey cLib10 cSettings10 true = Except.error "Invalid private key format" ∧
    cLib10.bs58Decode "2g" = some [97] ∧
    cLib10.base64Decode "2g" = [218] := by
  exact ⟨by decide, by decide, by decide⟩

/-- C10 amended: with `requirePrivateKey` the call returns a keypair
when `Keypair.fromSecretKey` accepts the base58-decoded bytes, falls
back to the base64 bytes when the base58 path fails for any reason
(decode error or key rejection), throws "Invalid private key format"
only when both paths fail, and throws "Private key not found" when no
(non-empty) private-key setting exists. Without it, the private-key
settings are never consulted; a missing public-key setting throws, and
otherwise the `PublicKey` constructor's outcome decides success (its
own failure propagating), returning only a public key. -/
theorem claim10_amended_getWalletKey (lib : SolanaLib)
    (sA sB sC sD tE tF uG vG : String → Option String)
    (pA pB pC qF : String) (kpA kpB : Keypair) (pkF : PublicKey)
    (hA1 : (sA "SOLANA_PRIVATE_KEY").orElse (fun _ => sA "WALLET_PRIVATE_KEY") = some pA)
    (hA2 : pA ≠ "")
    (hA3 : (lib.bs58Decode pA).bind lib.fromSecretKey = some kpA)
    (hB1 : (sB "SOLANA_PRIVATE_KEY").orElse (fun _ => sB "WALLET_PRIVATE_KEY") = some pB)
    (hB2 : pB ≠ "")
    (hB3 : (lib.bs58Decode pB).bind lib.fromSecretKey = none)
    (hB4 : lib.fromSecretKey (lib.base64Decode pB) = some kpB)
    (hC1 : (sC "SOLANA_PRIVATE_KEY").orElse (fun _ => sC "WALLET_PRIVATE_KEY") = some pC)
    (hC2 : pC ≠ "")
    (hC3 : (lib.bs58Decode pC).bind lib.fromSecretKey = none)
    (hC4 : lib.fromSecretKey (lib.base64Decode pC) = none)
    (hD : (sD "SOLANA_PRIVATE_KEY").orElse (fun _ => sD "WALLET_PRIVATE_KEY") = none)
    (hE : (tE "SOLANA_PUBLIC_KEY").orElse (fun _ => tE "WALLET_PUBLIC_KEY") = none)
    (hF1 : (tF "SOLANA_PUBLIC_KEY").orElse (fun _ => tF "WALLET_PUBLIC_KEY") = some qF)
    (hF2 : qF ≠ "")
    (hF3 : lib.parsePublicKey qF = some pkF)
    (hG1 : uG "SOLANA_PUBLIC_KEY" = vG "SOLANA_PUBLIC_KEY")
    (hG2 : uG "WALLET_PUBLIC_KEY" = vG "WALLET_PUBLIC_KEY") :
    getWalletKey lib sA true = Except.ok { keypair := some kpA, publicKey := none } ∧
    getWalletKey lib sB true = Except.ok { keypair := some kpB, publicKey := none } ∧
    getWalletKey lib sC true = Except.error "Invalid private key format" ∧
    getWalletKey lib sD true = Except.error "Private key not found in settings" ∧
    getWalletKey lib tE false =
      Except.error
        "Solana Public key not found in settings, but plugin was loaded, please set SOLANA_PUBLIC_KEY" ∧
    getWalletKey lib tF false = Except.ok { keypair := none, publicKey := some pkF } ∧
    getWalletKey lib uG false = getWalletKey lib vG false := by
  refine ⟨?_, ?_, ?_, ?_, ?_, ?_, ?_⟩
  · simp [getWalletKey, hA1, hA2, hA3]
  · simp [getWalletKey, hB1, hB2, hB3, hB4]
  · simp [getWalletKey, hC1, hC2, hC3, hC4]
  · simp [getWalletKey, hD]
  · simp [getWalletKey, hE]
  · simp [getWalletKey, hF1, hF2, hF3]
  · simp [getWalletKey, hG1, hG2]

/-- C10 witness: base58-accepted key, base64-only key (read through the
`WALLET_PRIVATE_KEY` fallback), key both paths reject, missing private
key, missing public key, valid public key, and indifference of the
public-key path to the private-key settings. -/
theorem claim10_amended_getWalletKey_witness :
    getWalletKey cLib10w cSettingsA10 true =
      Except.ok { keypair := some { secretKey := List.replicate 64 1 }, publicKey := none } ∧
    getWalletKey cLib10w cSettingsB10 true =
      Except.ok { keypair := some { secretKey := List.replicate 64 2 }, publicKey := none } ∧
    getWalletKey cLib10w cSettingsC10 true = Except.error "Invalid private key format" ∧
    getWalletKey cLib10w cSettingsNone10 true =
      Except.error "Private key not found in settings" ∧
    getWalletKey cLib10w cSettingsNone10 false =
      Except.error
        "Solana Public key not found in settings, but plugin was loaded, please set SOLANA_PUBLIC_KEY" ∧
    getWalletKey cLib10w cSettingsF10 false =
      Except.ok { keypair := none, publicKey := some { base58 := "PubKeyOK" } } ∧
    getWalletKey cLib10w cSettingsG10 false = getWalletKey cLib10w cSettingsH10 false := by
  exact claim10_amended_getWalletKey cLib10w cSettingsA10 cSettingsB10 cSettingsC10
    cSettingsNone10 cSettingsNone10 cSettingsF10 cSettingsG10 cSettingsH10
    "good58" "b64key" "junk" "PubKeyOK"
    { secretKey := List.replicate 64 1 } { secretKey := List.replicate 64 2 }
    { base58 := "PubKeyOK" }
    (by decide) (by decide) (by decide) (by decide) (by decide) (by decide) (by decide)
    (by decide) (by decide) (by decide) (by decide) (by decide) (by decide) (by decide)
    (by decide) (by decide) (by decide) (by decide)

end Eliza
